import Mathlib

/-!
Verification of the deepgram-python-sdk against its design specification.

The Python sources under `src/deepgram` are embedded shallowly: each Python
class becomes a Lean structure, each method a Lean function, exceptions become
`Except` results, and external effects (environment variables, module imports,
HTTP transports) become explicit parameters.  Components of the repository that
are referenced but whose defining file is not present under `src/` (the live
streaming client, `options.py`, `helpers.py`, the versioned `*Latest` client
classes) are modelled from the specification text; every such definition is
marked `Modelled from the spec:` in its doc comment.
-/

namespace DG

/-- Errors of the SDK, mirroring the exception classes named in the repository
(`DeepgramApiKeyError`, `DeepgramModuleError`, `DeepgramError`,
`DeepgramApiError`, `DeepgramUnknownApiError`) plus generic Python exceptions
(`pyException`) used where the code raises or propagates a plain exception. -/
inductive DgError where
  | apiKeyError (msg : String)
  | moduleError (msg : String)
  | deepgramError (msg : String)
  | unknownApiError (body : String) (status : Nat)
  | pyException (msg : String)
deriving Repr, DecidableEq

/-- Modelled from the spec: `src/` lacks `deepgram/options.py`.
`DeepgramClientOptions` carries the resolved credential (the spec treats
"configuration loading and credential resolution" as an external collaborator
holding the credential/config object); only the `api_key` attribute is used by
the code under verification (`client.py` reads `config.api_key` and calls
`config.set_apikey`). -/
structure DeepgramClientOptions where
  api_key : String
deriving Repr, DecidableEq

/-- Modelled from the spec: `config.set_apikey(key)` (called at
`client.py:180`) replaces the stored credential with `key`. -/
def DeepgramClientOptions.set_apikey (c : DeepgramClientOptions) (k : String) :
    DeepgramClientOptions :=
  { c with api_key := k }

/-- State of a constructed `DeepgramClient` (`client.py:123`): the resolved
`api_key`, the shared `config` object, and whether the constructor logged
`WARNING: API key is missing` (the only observable effect of a missing key). -/
structure DeepgramClient where
  api_key : String
  config : DeepgramClientOptions
  warned : Bool
deriving Repr, DecidableEq

/-- Embedding of `DeepgramClient.__init__` (`client.py:146-181`).  The
environment lookup `os.getenv("DEEPGRAM_API_KEY", "")` is the explicit
parameter `envApiKey` (`none` = variable unset).  The body of the constructor
contains no `raise` statement, so the result is always `Except.ok`; the
`Except` type records that a Python constructor could only fail by raising. -/
def DeepgramClient.init (api_key : String) (config : Option DeepgramClientOptions)
    (envApiKey : Option String) : Except DgError DeepgramClient :=
  let k1 :=
    match config with
    | some c => if api_key = ("") then c.api_key else api_key
    | none => api_key
  let k2 := if k1 = ("") then envApiKey.getD ("") else k1
  let warned := k2 = ("")
  match config with
  | none => Except.ok { api_key := k2, config := { api_key := k2 }, warned := warned }
  | some c => Except.ok { api_key := k2, config := c.set_apikey k2, warned := warned }

/-- The `Listen` client constructed by the `listen` property
(`client.py:183-194`).  Modelled from the spec: `clients/listen.py` is not
under `src/`; per the spec the sub-clients are "independent, simpler
components reusing the same credential/config object", so `Listen` stores the
config it is handed. -/
structure Listen where
  config : DeepgramClientOptions
deriving Repr, DecidableEq

/-- The `Read` client constructed by the `read` property (`client.py:196-208`).
Modelled from the spec: `clients/read.py` is not under `src/`; it stores the
config it is handed (same shape as `Listen`). -/
structure Read where
  config : DeepgramClientOptions
deriving Repr, DecidableEq

/-- State of the internal `DeepgramClient.Version` helper
(`client.py:270-276`): its `__init__` stores the config object and the parent
kind string. -/
structure Version where
  config : DeepgramClientOptions
  parent : String
deriving Repr, DecidableEq

/-- Embedding of the `listen` property (`client.py:183-194`):
`return Listen(self.config)`. -/
def DeepgramClient.listen (c : DeepgramClient) : Listen :=
  { config := c.config }

/-- Embedding of the `read` property (`client.py:196-208`):
`return Read(self.config)`. -/
def DeepgramClient.read (c : DeepgramClient) : Read :=
  { config := c.config }

/-- Embedding of the `manage` property (`client.py:210-224`):
`return self.Version(self.config, "manage")`. -/
def DeepgramClient.manage (c : DeepgramClient) : Version :=
  { config := c.config, parent := ("manage") }

/-- Embedding of the `asyncmanage` property (`client.py:226-238`). -/
def DeepgramClient.asyncmanage (c : DeepgramClient) : Version :=
  { config := c.config, parent := ("asyncmanage") }

/-- Embedding of the `onprem` property (`client.py:240-253`). -/
def DeepgramClient.onprem (c : DeepgramClient) : Version :=
  { config := c.config, parent := ("onprem") }

/-- Embedding of the `asynconprem` property (`client.py:255-267`). -/
def DeepgramClient.asynconprem (c : DeepgramClient) : Version :=
  { config := c.config, parent := ("asynconprem") }

/-- A Python module as seen by `Version.v`: the set of class names
`getattr` can resolve on it. -/
structure PyModule where
  classes : List String
deriving Repr, DecidableEq

/-- A versioned client instance as produced by `Version.v`
(`client.py:341-345`): the name of the instantiated class and the config the
instance was constructed with (`my_class(self.config)`). -/
structure VersionedClient where
  className : String
  config : DeepgramClientOptions
deriving Repr, DecidableEq

/-- The `match self.parent` table of `Version.v` (`client.py:301-321`):
resolved module parent, file name, and class name — `none` for an unknown
parent. -/
def parentInfo : String → Option (String × String × String)
  | "manage" => some (("manage"), ("client"), ("ManageClient"))
  | "asyncmanage" => some (("manage"), ("async_client"), ("AsyncManageClient"))
  | "onprem" => some (("onprem"), ("client"), ("OnPremClient"))
  | "asynconprem" => some (("onprem"), ("async_client"), ("AsyncOnPremClient"))
  | _ => none

/-- The module path built at `client.py:324`:
`f"deepgram.clients.{parent}.v{version}.{fileName}"`. -/
def modulePath (parent version fileName : String) : String :=
  ("deepgram.clients.") ++ parent ++ (".v") ++ version ++ (".") ++ fileName

/-- The import-and-instantiate tail of `Version.v` (`client.py:323-345`):
it imports the module at the computed path, resolves the class, and
instantiates it with the stored config.  `importModule` stands for `importlib.import_module`;
`none` means the module path does not resolve, in which case Python raises
`ModuleNotFoundError` (`import_module` never returns `None`, so the code's
`mod is None` check is dead); similarly a class name missing from the module
makes `getattr` raise `AttributeError` (the `my_class is None` check is
dead). -/
def vImport (config : DeepgramClientOptions) (parent fileName className version : String)
    (importModule : String → Option PyModule) : Except DgError VersionedClient :=
  match importModule (modulePath parent version fileName) with
  | none => Except.error (DgError.pyException
      (("ModuleNotFoundError: ") ++ modulePath parent version fileName))
  | some m =>
    if className ∈ m.classes then
      Except.ok { className := className, config := config }
    else
      Except.error (DgError.pyException (("AttributeError: ") ++ className))

/-- Embedding of `DeepgramClient.Version.v` (`client.py:290-345`): reject an
empty version, resolve the parent kind, then import and instantiate. -/
def Version.v (s : Version) (version : String)
    (importModule : String → Option PyModule) : Except DgError VersionedClient :=
  if version.length = 0 then
    Except.error (DgError.moduleError ("Invalid module version"))
  else
    match parentInfo s.parent with
    | none => Except.error (DgError.moduleError ("Invalid parent type"))
    | some (parent, fileName, className) =>
      vImport s.config parent fileName className version importModule

/-- Embedding of the legacy `Deepgram.__init__` (`client.py:87-120`): it
unconditionally raises, whatever arguments it receives.  The raised message
(abridged here) begins `FATAL ERROR` and explains that `Deepgram` is no longer
a class in version 3 of the SDK. -/
def Deepgram.init (_anything : List String) : Except DgError DeepgramClient :=
  Except.error (DgError.pyException
    ("FATAL ERROR: You are attempting to instantiate a Deepgram object, which is no longer a class in version 3 of this SDK."))

/-!
Pass-through class model (for `clients/prerecorded/client.py`,
`clients/analyze/client.py`, `clients/manage/client.py`).

A Python instance is modelled by its attribute dictionary; `__init__` bodies
become transformers of that dictionary.  A class is the pair of its effective
`__init__` and the list of method names it resolves (method-resolution order:
own methods shadow inherited ones).
-/

/-- Attribute dictionary of a Python instance; all attributes the classes
under verification assign hold the config object. -/
abbrev AttrMap := List (String × DeepgramClientOptions)

/-- Python attribute assignment `self.k = v`: overwrite an existing binding or
append a new one. -/
def setAttr : AttrMap → String → DeepgramClientOptions → AttrMap
  | [], k, v => [(k, v)]
  | (k₀, v₀) :: rest, k, v =>
    if k₀ = k then (k, v) :: rest else (k₀, v₀) :: setAttr rest k v

/-- A Python class, observationally: `initOn a cfg` runs the effective
`__init__(self, config)` on an instance whose current attributes are `a`, and
`methods` lists the method names the class resolves (in method-resolution
order). -/
structure PyClass where
  initOn : AttrMap → DeepgramClientOptions → AttrMap
  methods : List String

/-- Constructing an instance: run `__init__` on a fresh (empty) attribute
dictionary. -/
def PyClass.construct (c : PyClass) (cfg : DeepgramClientOptions) : AttrMap :=
  c.initOn [] cfg

/-- A class body appearing in the source: optionally a `__init__` of its own
(receiving the superclass to delegate to), plus any methods and class-level
fields it defines itself. -/
structure ClassDef where
  ownInit : Option (PyClass → AttrMap → DeepgramClientOptions → AttrMap)
  ownMethods : List String

/-- Python subclassing `class C(Base): <body>`: the effective `__init__` is
the body's if present, else the inherited one; own methods shadow (precede)
inherited ones. -/
def extend (base : PyClass) (d : ClassDef) : PyClass :=
  { initOn :=
      match d.ownInit with
      | some f => f base
      | none => base.initOn,
    methods := d.ownMethods ++ base.methods }

/-- The body `pass` (a docstring only): no `__init__`, no methods, no fields —
used by every pass-through option/response type. -/
def passBody : ClassDef :=
  { ownInit := none, ownMethods := [] }

/-- The body `def __init__(self, config): super().__init__(config)` — used by
`ManageClient`, `AsyncManageClient`, `AsyncPreRecordedClient`,
`AsyncAnalyzeClient`. -/
def delegatingInitBody : ClassDef :=
  { ownInit := some (fun base a cfg => base.initOn a cfg), ownMethods := [] }

/-- The body `def __init__(self, config): self.config = config;
super().__init__(config)` — used by `PreRecordedClient` and `AnalyzeClient`. -/
def configThenSuperBody : ClassDef :=
  { ownInit := some (fun base a cfg => base.initOn (setAttr a ("config") cfg) cfg),
    ownMethods := [] }

/-- Modelled from the spec: the versioned `*Latest` classes
(`clients/*/v1/client.py`, `async_client.py`, `options.py`, `response.py`) are
not under `src/`.  Per the spec's versioned-interface note (§9) and the shared
credential/config requirement (§6), a latest-version class stores the config
object handed to it on the instance; its other methods are abstract (the
parameter `ms`). -/
def latestBase (ms : List String) : PyClass :=
  { initOn := fun a cfg => setAttr a ("config") cfg, methods := ms }

/-- `class PreRecordedClient(PreRecordedClientLatest)` with `self.config =
config; super().__init__(config)` (`clients/prerecorded/client.py:54-62`). -/
def PreRecordedClient (base : PyClass) : PyClass :=
  extend base configThenSuperBody

/-- `class AsyncPreRecordedClient(AsyncPreRecordedClientLatest)` delegating
`__init__` (`clients/prerecorded/client.py:65-71`). -/
def AsyncPreRecordedClient (base : PyClass) : PyClass :=
  extend base delegatingInitBody

/-- `class AnalyzeClient(AnalyzeClientLatest)` with `self.config = config;
super().__init__(config)` (`clients/analyze/client.py:54-62`). -/
def AnalyzeClient (base : PyClass) : PyClass :=
  extend base configThenSuperBody

/-- `class AsyncAnalyzeClient(AsyncAnalyzeClientLatest)` delegating `__init__`
(`clients/analyze/client.py:65-71`). -/
def AsyncAnalyzeClient (base : PyClass) : PyClass :=
  extend base delegatingInitBody

/-- `class ManageClient(ManageClientLatest)` delegating `__init__`
(`clients/manage/client.py:212-219`). -/
def ManageClient (base : PyClass) : PyClass :=
  extend base delegatingInitBody

/-- `class AsyncManageClient(AsyncManageClientLatest)` delegating `__init__`
(`clients/manage/client.py:222-229`). -/
def AsyncManageClient (base : PyClass) : PyClass :=
  extend base delegatingInitBody

/-- `class PrerecordedOptions(PrerecordedOptionsLatest): pass`
(`clients/prerecorded/client.py:21-26`). -/
def PrerecordedOptions (base : PyClass) : PyClass :=
  extend base passBody

/-- `class AsyncPrerecordedResponse(AsyncPrerecordedResponseLatest): pass`
(`clients/prerecorded/client.py:30-35`). -/
def AsyncPrerecordedResponse (base : PyClass) : PyClass :=
  extend base passBody

/-- `class PrerecordedResponse(PrerecordedResponseLatest): pass`
(`clients/prerecorded/client.py:38-43`). -/
def PrerecordedResponse (base : PyClass) : PyClass :=
  extend base passBody

/-- `class SyncPrerecordedResponse(PrerecordedResponseLatest): pass`
(`clients/prerecorded/client.py:46-51`; note the base really is
`PrerecordedResponseLatest`, not `SyncPrerecordedResponseLatest`). -/
def SyncPrerecordedResponse (base : PyClass) : PyClass :=
  extend base passBody

/-- `class AnalyzeOptions(AnalyzeOptionsLatest): pass`
(`clients/analyze/client.py:21-26`). -/
def AnalyzeOptions (base : PyClass) : PyClass :=
  extend base passBody

/-- `class AsyncAnalyzeResponse(AsyncAnalyzeResponseLatest): pass`
(`clients/analyze/client.py:29-34`). -/
def AsyncAnalyzeResponse (base : PyClass) : PyClass :=
  extend base passBody

/-- `class AnalyzeResponse(AnalyzeResponseLatest): pass`
(`clients/analyze/client.py:37-42`). -/
def AnalyzeResponse (base : PyClass) : PyClass :=
  extend base passBody

/-- `class SyncAnalyzeResponse(AnalyzeResponseLatest): pass`
(`clients/analyze/client.py:45-50`). -/
def SyncAnalyzeResponse (base : PyClass) : PyClass :=
  extend base passBody

/-- `class ProjectOptions(ProjectOptionsLatest): pass`
(`clients/manage/client.py:41-46`). -/
def ProjectOptions (base : PyClass) : PyClass :=
  extend base passBody

/-- `class KeyOptions(KeyOptionsLatest): pass`
(`clients/manage/client.py:49-54`). -/
def KeyOptions (base : PyClass) : PyClass :=
  extend base passBody

/-- `class ScopeOptions(ScopeOptionsLatest): pass`
(`clients/manage/client.py:57-62`). -/
def ScopeOptions (base : PyClass) : PyClass :=
  extend base passBody

/-- `class InviteOptions(InviteOptionsLatest): pass`
(`clients/manage/client.py:65-70`). -/
def InviteOptions (base : PyClass) : PyClass :=
  extend base passBody

/-- `class UsageRequestOptions(UsageRequestOptionsLatest): pass`
(`clients/manage/client.py:73-78`). -/
def UsageRequestOptions (base : PyClass) : PyClass :=
  extend base passBody

/-- `class UsageSummaryOptions(UsageSummaryOptionsLatest): pass`
(`clients/manage/client.py:81-86`). -/
def UsageSummaryOptions (base : PyClass) : PyClass :=
  extend base passBody

/-- `class UsageFieldsOptions(UsageFieldsOptionsLatest): pass`
(`clients/manage/client.py:89-94`). -/
def UsageFieldsOptions (base : PyClass) : PyClass :=
  extend base passBody

/-- `class Message(MessageLatest): pass` (`clients/manage/client.py:98-103`);
the remaining response pass-throughs of `clients/manage/client.py`
(`Project`, `ProjectsResponse`, `MembersResponse`, `Key`, `KeyResponse`,
`KeysResponse`, `ScopesResponse`, `InvitesResponse`, `UsageRequest`,
`UsageRequestsResponse`, `UsageSummaryResponse`, `UsageFieldsResponse`,
`Balance`, `BalancesResponse`) all have this same `pass` body. -/
def Message (base : PyClass) : PyClass :=
  extend base passBody

/-!
JSON model for the REST error path (`json.loads` / dict `.get` semantics of
the Python standard library, used by `_handle_request` in
`clients/abstract_sync_client.py` and `clients/abstract_async_client.py`).
-/

/-- A JSON value as produced by `json.loads`: objects become Python dicts,
arrays lists, numbers (including the `NaN`/`Infinity`/`-Infinity` constants
the stdlib decoder accepts by default) carried as their raw literal text —
their numeric value plays no role in the code under verification. -/
inductive JVal where
  | jnull
  | jbool (b : Bool)
  | jnum (raw : String)
  | jstr (s : String)
  | jarr (xs : List JVal)
  | jobj (fields : List (String × JVal))

/-- Leading JSON whitespace removal. -/
def skipWs : List Char → List Char
  | c :: rest =>
    if c = ' ' ∨ c = '\t' ∨ c = '\n' ∨ c = '\r' then skipWs rest else c :: rest
  | [] => []

/-- Value of one hexadecimal digit. -/
def hexVal (c : Char) : Option Nat :=
  if c.isDigit then some (c.toNat - 48)
  else if 'a' ≤ c ∧ c ≤ 'f' then some (c.toNat - 87)
  else if 'A' ≤ c ∧ c ≤ 'F' then some (c.toNat - 55)
  else none

/-- Four hexadecimal digits, as in a `\uXXXX` escape. -/
def hex4 : List Char → Option (Nat × List Char)
  | a :: b :: c :: d :: rest =>
    match hexVal a, hexVal b, hexVal c, hexVal d with
    | some x, some y, some z, some w => some (((x * 16 + y) * 16 + z) * 16 + w, rest)
    | _, _, _, _ => none
  | _ => none

/-- Body of a JSON string literal after the opening quote, following CPython's
`py_scanstring` in strict mode (the default used by `json.loads`): the short
escapes, `\uXXXX` escapes with surrogate-pair combining (a high surrogate
immediately followed by a `\uXXXX` low surrogate yields the combined scalar;
otherwise each escape stands alone), unknown escapes rejected, and raw control
characters (below 0x20) rejected.  Returns the decoded text and the remainder
after the closing quote.  One divergence is forced by the embedding: Python
keeps an unpaired surrogate in the decoded `str`, which Lean's `Char` cannot
represent, so a lone surrogate decodes to `Char.ofNat`'s fallback; this
affects only the decoded payload text, never whether parsing succeeds.  The
fuel only bounds recursion; callers supply the input length, which always
suffices. -/
def parseStringBody : Nat → List Char → Option (String × List Char)
  | 0, _ => none
  | _ + 1, [] => none
  | _ + 1, '"' :: rest => some (("") , rest)
  | fuel + 1, '\\' :: 'u' :: rest =>
    (match hex4 rest with
     | none => none
     | some (n, rest₂) =>
       let lone : Option (String × List Char) :=
         match parseStringBody fuel rest₂ with
         | some (s, rem) => some ((String.mk (Char.ofNat n :: s.data)), rem)
         | none => none
       if 55296 ≤ n ∧ n ≤ 56319 then
         match rest₂ with
         | '\\' :: 'u' :: rest₃ =>
           match hex4 rest₃ with
           | some (n₂, rest₄) =>
             if 56320 ≤ n₂ ∧ n₂ ≤ 57343 then
               match parseStringBody fuel rest₄ with
               | some (s, rem) =>
                 some ((String.mk
                   (Char.ofNat (65536 + (n - 55296) * 1024 + (n₂ - 56320)) :: s.data)), rem)
               | none => none
             else lone
           | none => lone
         | _ => lone
       else lone)
  | fuel + 1, '\\' :: e :: rest =>
    (let dec : Option Char :=
      if e = '"' then some '"'
      else if e = '\\' then some '\\'
      else if e = '/' then some '/'
      else if e = 'n' then some '\n'
      else if e = 't' then some '\t'
      else if e = 'r' then some '\r'
      else if e = 'b' then some (Char.ofNat 8)
      else if e = 'f' then some (Char.ofNat 12)
      else none
    match dec with
    | none => none
    | some c =>
      match parseStringBody fuel rest with
      | some (s, rem) => some ((String.mk (c :: s.data)), rem)
      | none => none)
  | fuel + 1, c :: rest =>
    if c.toNat < 32 then none
    else
      match parseStringBody fuel rest with
      | some (s, rem) => some ((String.mk (c :: s.data)), rem)
      | none => none

/-- A maximal run of decimal digits. -/
def parseDigits : List Char → String × List Char
  | c :: rest =>
    if c.isDigit then
      let p := parseDigits rest
      ((String.mk (c :: p.1.data)), p.2)
    else (("") , c :: rest)
  | [] => (("") , [])

/-- The integer part of a JSON number per the grammar Python's `NUMBER_RE`
uses: a single `0`, or a nonzero digit followed by digits (so a leading zero
is never followed by more digits). -/
def parseIntPart : List Char → Option (String × List Char)
  | '0' :: rest => some ((("0") : String), rest)
  | c :: rest =>
    if c.isDigit then
      let p := parseDigits rest
      some ((String.mk (c :: p.1.data)), p.2)
    else none
  | [] => none

/-- The optional exponent of a JSON number: `e` or `E`, an optional sign, and
at least one digit; consumes nothing when that shape is not present, exactly
like the optional `[eE][-+]?\d+` group of Python's `NUMBER_RE`. -/
def parseExpPart (s : List Char) : String × List Char :=
  match s with
  | e :: rest =>
    if e = 'e' ∨ e = 'E' then
      let (sign, rest₂) :=
        match rest with
        | '+' :: r => ((("+") : String), r)
        | '-' :: r => ((("-") : String), r)
        | _ => (("") , rest)
      let p := parseDigits rest₂
      if p.1 = ("") then (("") , s)
      else ((String.mk [e]) ++ sign ++ p.1, p.2)
    else (("") , s)
  | [] => (("") , [])

/-- Parse a JSON number starting at the given characters (which begin with a
minus sign or a digit), per Python's `NUMBER_RE`
`(-?(?:0|[1-9]\d+|[1-9]))(\.\d+)?([eE][-+]?\d+)?`: optional minus, integer
part without spurious leading zeros, optional fraction (a dot with at least
one digit), optional exponent; returns the raw literal text, whose numeric
value plays no role in the code under verification. -/
def parseNumber (s : List Char) : Option (JVal × List Char) :=
  let (neg, s₁) := match s with
    | '-' :: rest => ((("-") : String), rest)
    | _ => (("") , s)
  match parseIntPart s₁ with
  | none => none
  | some (intPart, s₂) =>
    let (frac, s₃) :=
      match s₂ with
      | '.' :: rest =>
        let p := parseDigits rest
        if p.1 = ("") then ((("") : String), s₂)
        else (((".") ++ p.1), p.2)
      | _ => (("") , s₂)
    let (expPart, s₄) := parseExpPart s₃
    some (JVal.jnum (neg ++ intPart ++ frac ++ expPart), s₄)

mutual

/-- Fuel-indexed recursive-descent JSON value parser (the fuel only bounds
recursion depth; callers supply enough for the input length).  Besides the
standard literals it accepts `NaN`, `Infinity` and `-Infinity`, which
`json.loads` accepts by default (`parse_constant` is not overridden anywhere
in the repository); like other numbers they are carried as their raw text. -/
def parseVal : Nat → List Char → Option (JVal × List Char)
  | 0, _ => none
  | fuel + 1, s =>
    match skipWs s with
    | 'n' :: 'u' :: 'l' :: 'l' :: rest => some (JVal.jnull, rest)
    | 't' :: 'r' :: 'u' :: 'e' :: rest => some (JVal.jbool true, rest)
    | 'f' :: 'a' :: 'l' :: 's' :: 'e' :: rest => some (JVal.jbool false, rest)
    | 'N' :: 'a' :: 'N' :: rest => some (JVal.jnum (("NaN")), rest)
    | 'I' :: 'n' :: 'f' :: 'i' :: 'n' :: 'i' :: 't' :: 'y' :: rest =>
      some (JVal.jnum (("Infinity")), rest)
    | '-' :: 'I' :: 'n' :: 'f' :: 'i' :: 'n' :: 'i' :: 't' :: 'y' :: rest =>
      some (JVal.jnum (("-Infinity")), rest)
    | c :: rest =>
      if c = '"' then
        match parseStringBody (rest.length + 1) rest with
        | some (str, rem) => some (JVal.jstr str, rem)
        | none => none
      else if c = Char.ofNat 123 then parseObjRest fuel rest true []
      else if c = '[' then parseArrRest fuel rest true []
      else if c = '-' ∨ c.isDigit then parseNumber (c :: rest)
      else none
    | [] => none

/-- Elements of a JSON array after the opening bracket; `first` is true before
any element has been read, `acc` holds elements read so far (in reverse).
After an element, only `,` (followed by a further element) or `]` may follow,
matching the Python parser's rejection of trailing commas. -/
def parseArrRest : Nat → List Char → Bool → List JVal → Option (JVal × List Char)
  | 0, _, _, _ => none
  | fuel + 1, s, first, acc =>
    match skipWs s with
    | ']' :: rest => some (JVal.jarr acc.reverse, rest)
    | s₁ =>
      let s₂? : Option (List Char) :=
        if first then some s₁
        else
          match s₁ with
          | ',' :: rest => some rest
          | _ => none
      match s₂? with
      | none => none
      | some s₂ =>
        match parseVal fuel s₂ with
        | some (v, rem) => parseArrRest fuel rem false (v :: acc)
        | none => none

/-- Members of a JSON object after the opening brace; `first` is true before
any member has been read, `acc` holds members read so far (in reverse). -/
def parseObjRest : Nat → List Char → Bool → List (String × JVal) →
    Option (JVal × List Char)
  | 0, _, _, _ => none
  | fuel + 1, s, first, acc =>
    match skipWs s with
    | c :: rest =>
      if c = Char.ofNat 125 then some (JVal.jobj acc.reverse, rest)
      else
        let afterComma : Option (List Char) :=
          if first then some (c :: rest)
          else if c = ',' then some rest else none
        match afterComma with
        | none => none
        | some s₂ =>
          match skipWs s₂ with
          | k :: rest₂ =>
            if k = '"' then
              match parseStringBody (rest₂.length + 1) rest₂ with
              | some (key, rem) =>
                match skipWs rem with
                | ':' :: rem₂ =>
                  match parseVal fuel rem₂ with
                  | some (v, rem₃) => parseObjRest fuel rem₃ false ((key, v) :: acc)
                  | none => none
                | _ => none
              | none => none
            else none
          | [] => none
    | [] => none

end

/-- `json.loads(text)` with CPython's defaults: parse a complete JSON
document (arbitrary surrounding whitespace allowed, nothing else); `none`
models `json.decoder.JSONDecodeError`.  The grammar follows the stdlib
decoder: numbers per `NUMBER_RE` including exponents and the leading-zero
restriction, the constants `NaN`/`Infinity`/`-Infinity`, strict-mode strings
with `\uXXXX` escapes and surrogate-pair combining, no trailing commas, and
last-wins duplicate object keys (via `dictGet`). -/
def jsonLoads (s : String) : Option JVal :=
  match parseVal (s.length * 2 + 4) s.data with
  | some (v, rest) => if (skipWs rest).isEmpty then some v else none
  | none => none

/-- Python dict lookup `d.get(k)` for a dict built by `json.loads` from an
object literal: sequential insertion makes the last duplicate key win; a
missing key yields `None`. -/
def dictGet (fields : List (String × JVal)) (k : String) : Option JVal :=
  (fields.reverse.find? (fun p => p.1 == k)).map (fun p => p.2)

/-- `httpx.Timeout(total, connect=connect)`; the code only ever builds the
default `httpx.Timeout(30.0, connect=10.0)`, whose components are exact
integers, so seconds are carried as naturals. -/
structure HttpxTimeout where
  total : Nat
  connect : Nat
deriving Repr, DecidableEq

/-- Outcome of `client.request(...)` followed by `raise_for_status()`, i.e.
the behaviour of the external HTTP transport for the one request issued:
success with a body, an `httpx.HTTPStatusError` carrying the error response,
another `httpx.HTTPError` (connect/read failure), or any other exception. -/
inductive HttpOutcome where
  | success (text : String)
  | statusError (status : Nat) (text : String)
  | transportError (msg : String)
  | otherException (msg : String)

/-- The single HTTP request a `_handle_request` call hands to `httpx`:
method, final URL (after query-parameter appending), headers, and the
effective timeout. -/
structure IssuedRequest where
  method : String
  url : String
  headers : List (String × String)
  timeout : HttpxTimeout

/-- Errors escaping `_handle_request`: the two Deepgram wrappers, the
`AttributeError` produced when `json.loads` yields a non-dict value (on which
`.get("err_msg")` is then called), and re-raised transport / other
exceptions. -/
inductive RestError where
  | apiError (errMsg : Option JVal) (status : Nat) (obj : List (String × JVal))
  | unknownApiError (body : String) (status : Nat)
  | attributeGetError
  | httpOtherError (msg : String)
  | otherException (msg : String)

/-- Embedding of `AbstractSyncRestClient._handle_request`
(`abstract_sync_client.py:189-221`).  `aqp` is `append_query_params` from
`clients/helpers.py` (its defining file is not under `src/`; both REST
clients use that same function, so it is kept abstract).  The transport's
behaviour
for the issued request is the explicit `outcome` parameter; the result pairs
the request handed to `httpx` with the returned text or escaping error.  On an
`HTTPStatusError`, `status_code = e.response.status_code or 500` (Python `or`:
a falsy `0` becomes `500`); the body is parsed with `json.loads` — a dict
yields `DeepgramApiError(obj.get("err_msg"), status_code, json.dumps(obj))`, a
parse failure yields `DeepgramUnknownApiError(text, status_code)`, and any
other JSON value makes `obj.get` raise `AttributeError`, which no `except`
clause in scope catches; other `httpx.HTTPError`s and other exceptions are
re-raised.  (The `except ValueError` arm is unreachable: `json.loads` on a
`str` only raises `JSONDecodeError`, which the preceding arm catches.) -/
def handle_request_sync (aqp : String → List (String × String) → String)
    (method : String) (url : String)
    (params : Option (List (String × String)))
    (addons : Option (List (String × String)))
    (headers : List (String × String)) (timeout : Option HttpxTimeout)
    (outcome : HttpOutcome) : IssuedRequest × Except RestError String :=
  let new_url := url
  let new_url := match params with
    | some p => aqp new_url p
    | none => new_url
  let new_url := match addons with
    | some a => aqp new_url a
    | none => new_url
  let t := match timeout with
    | some t => t
    | none => { total := 30, connect := 10 }
  ({ method := method, url := new_url, headers := headers, timeout := t },
   match outcome with
   | HttpOutcome.success text => Except.ok text
   | HttpOutcome.statusError status text =>
     let status_code := if status = 0 then 500 else status
     match jsonLoads text with
     | some (JVal.jobj fields) =>
       Except.error (RestError.apiError (dictGet fields ("err_msg")) status_code fields)
     | some _ => Except.error RestError.attributeGetError
     | none => Except.error (RestError.unknownApiError text status_code)
   | HttpOutcome.transportError msg => Except.error (RestError.httpOtherError msg)
   | HttpOutcome.otherException msg => Except.error (RestError.otherException msg))

/-- Embedding of `AbstractAsyncRestClient._handle_request`
(`abstract_async_client.py:182-235`); transcribed separately from its own
source, whose body duplicates the sync client's (the `async`/`await` plumbing
has no observable effect here), with `timeout` and `headers` swapped in the
parameter list, as in the source. -/
def handle_request_async (aqp : String → List (String × String) → String)
    (method : String) (url : String)
    (params : Option (List (String × String)))
    (addons : Option (List (String × String)))
    (timeout : Option HttpxTimeout) (headers : List (String × String))
    (outcome : HttpOutcome) : IssuedRequest × Except RestError String :=
  let new_url := url
  let new_url := match params with
    | some p => aqp new_url p
    | none => new_url
  let new_url := match addons with
    | some a => aqp new_url a
    | none => new_url
  let t := match timeout with
    | some t => t
    | none => { total := 30, connect := 10 }
  ({ method := method, url := new_url, headers := headers, timeout := t },
   match outcome with
   | HttpOutcome.success text => Except.ok text
   | HttpOutcome.statusError status text =>
     let status_code := if status = 0 then 500 else status
     match jsonLoads text with
     | some (JVal.jobj fields) =>
       Except.error (RestError.apiError (dictGet fields ("err_msg")) status_code fields)
     | some _ => Except.error RestError.attributeGetError
     | none => Except.error (RestError.unknownApiError text status_code)
   | HttpOutcome.transportError msg => Except.error (RestError.httpOtherError msg)
   | HttpOutcome.otherException msg => Except.error (RestError.otherException msg))

/-!
Embedding of `PreRecordedClientV1.transcribe_url`
(`clients/prerecorded/v1_client.py:29-57`).
-/

/-- A Python dict with string keys, as used for sources and option dicts (the
values play no role in the control flow under verification and are carried as
strings). -/
abbrev PyDict := List (String × String)

/-- Python `k in d` membership test on a dict. -/
def PyDict.hasKey (d : PyDict) (k : String) : Bool :=
  d.any (fun p => p.1 == k)

/-- State of a `PreRecordedClientV1` (`v1_client.py:17-27`): its `__init__`
stores the base URL and headers. -/
structure PreRecordedClientV1 where
  url : String
  headers : PyDict

/-- A request handed to `self.post` by `transcribe_url`: the URL, the options
passed through, and the JSON body (the source dict). -/
structure PostRequest where
  url : String
  options : Option PyDict
  body : PyDict

/-- Embedding of `transcribe_url` (`v1_client.py:29-57`).  `isUrlSource`
stands for `helpers.is_url_source` (`clients/prerecorded/helpers.py` is not
under `src/`; the callback check under verification precedes its use, so it is
kept abstract).  The result pairs the list of HTTP requests issued through
`self.post` (in order) with the outcome; the response value itself is the
transport's business and is not modelled. -/
def transcribe_url (c : PreRecordedClientV1) (isUrlSource : PyDict → Bool)
    (source : PyDict) (options : Option PyDict) (endpoint : String) :
    List PostRequest × Except DgError Unit :=
  let url := c.url ++ ("/") ++ endpoint
  let callbackPresent :=
    match options with
    | some o => o.hasKey ("callback")
    | none => false
  if callbackPresent then
    ([], Except.error (DgError.deepgramError
      ("Callback cannot be provided as an option to a synchronous transcription. Use `transcribe_url_callback` instead.")))
  else if isUrlSource source then
    ([{ url := url, options := options, body := source }], Except.ok ())
  else
    ([], Except.error (DgError.deepgramError ("Unknown transcription source type")))

/-!
Streaming connection core, C2-C4.  Modelled from the spec: the live streaming
client (`clients/live/v1/client.py` and `async_client.py`) is not under
`src/`; the model below follows spec sections 3-5 (data model, connection
state machine, send queue / writer, reader / dispatcher).
-/

/-- Control frame kinds (spec §3, `OutboundFrame`). -/
inductive ControlKind where
  | keepAlive
  | finalize
  | closeStream
deriving Repr, DecidableEq

/-- Modelled from the spec (§3): an outbound frame is an audio chunk (bytes
plus sequence number) or a control message; immutable once enqueued. -/
inductive OutboundFrame where
  | audioChunk (bytes : List Nat) (seq : Nat)
  | control (kind : ControlKind)
deriving Repr, DecidableEq

/-- Modelled from the spec (§4.1): connection lifecycle states. -/
inductive ConnState where
  | idle
  | connecting
  | connected
  | closing
  | reconnecting
  | closed
deriving Repr, DecidableEq

/-- Errors reported synchronously to the caller of `send` (spec §7: state
errors and backpressure errors; backpressure is never a silent drop). -/
inductive SendError where
  | stateError
  | backpressure
deriving Repr, DecidableEq

/-- Modelled from the spec (§3-§5): one streaming connection: its state, the
bounded FIFO send queue, the queue capacity, the frames the writer has
delivered to the socket (in delivery order), and notifications raised to
listeners. -/
structure LiveConn where
  state : ConnState
  queue : List OutboundFrame
  capacity : Nat
  sent : List OutboundFrame
  notices : List String
deriving Repr, DecidableEq

/-- Modelled from the spec (§4.1-§4.2): `send` while `Connected` enqueues the
frame (FIFO, at the tail); when the bounded queue is full the caller gets a
backpressure error and nothing is dropped silently; `send` in any other state
is a state error (spec §4.5: fails with a state error if called before
`Connected` or after `finish`/`close`). -/
def LiveConn.send (s : LiveConn) (f : OutboundFrame) : LiveConn × Option SendError :=
  if s.state = ConnState.connected then
    if s.queue.length < s.capacity then
      ({ s with queue := s.queue ++ [f] }, none)
    else (s, some SendError.backpressure)
  else (s, some SendError.stateError)

/-- Enqueue a sequence of frames in order, collecting the rejections reported
to the caller. -/
def LiveConn.sendAll (s : LiveConn) (fs : List OutboundFrame) :
    LiveConn × List SendError :=
  match fs with
  | [] => (s, [])
  | f :: rest =>
    let r := s.send f
    let r₂ := LiveConn.sendAll r.1 rest
    (r₂.1, (match r.2 with | some e => [e] | none => []) ++ r₂.2)

/-- Modelled from the spec (§4.2): one writer step delivers the head of the
queue to the socket; the writer is the only task that writes. -/
def LiveConn.writerStep (s : LiveConn) : LiveConn :=
  match s.queue with
  | [] => s
  | f :: rest => { s with queue := rest, sent := s.sent ++ [f] }

/-- Iterated writer steps. -/
def LiveConn.writerRun (s : LiveConn) : Nat → LiveConn
  | 0 => s
  | n + 1 => (s.writerStep).writerRun n

/-- The writer draining the whole queue. -/
def LiveConn.drain (s : LiveConn) : LiveConn :=
  s.writerRun s.queue.length

/-- Modelled from the spec (§4.1 `close()` and §5 cancellation): caller-forced
teardown from any state — a best-effort `CloseStream` frame is sent when a
socket exists (from `Connecting`, `Connected`, `Closing` or `Reconnecting`),
the socket is closed immediately, and all pending queued frames are discarded;
in `Idle` or `Closed` there is no socket and nothing to do, so no frame or
notification is produced. -/
def LiveConn.close (s : LiveConn) : LiveConn :=
  match s.state with
  | ConnState.closed => s
  | ConnState.idle => { s with state := ConnState.closed, queue := [] }
  | _ =>
    { s with
      state := ConnState.closed
      queue := []
      sent := s.sent ++ [OutboundFrame.control ControlKind.closeStream] }

/-!
Event dispatcher model (spec §3 listener registry, §4.3 reader / codec, §4.4
dispatcher).
-/

/-- Modelled from the spec (§3): categories of inbound events. -/
inductive EventCat where
  | openEvent
  | result
  | metadata
  | speechStarted
  | utteranceEnd
  | warning
  | errorEvent
  | closeEvent
  | unhandled
deriving Repr, DecidableEq

/-- Modelled from the spec (§3, §4.3): a decoded inbound event — its category
(from the frame's `type` discriminator; unknown discriminators map to a
passthrough `unhandled` category) and its raw payload. -/
structure InboundEvent where
  cat : EventCat
  payload : String
deriving Repr, DecidableEq

/-- A registration key: a specific event category, or the "all events"
registration (spec §4.4). -/
inductive RegKey where
  | cat (c : EventCat)
  | allEvents
deriving Repr, DecidableEq

/-- A registered listener callback: an identifying handle and the observable
behaviour of the callback — whether it raises on a given event.  (What the
callback computes is the application's business; only raising matters to the
dispatcher.) -/
structure Listener where
  id : Nat
  raisesOn : InboundEvent → Bool

/-- Modelled from the spec (§3): the listener registry, an insertion-ordered
sequence of (key, callback) registrations. -/
structure Registry where
  entries : List (RegKey × Listener)

/-- Listeners the dispatcher invokes for an event of category `c`: those
registered for `c` plus those registered for all events, in registration
order (spec §4.4). -/
def Registry.listenersFor (r : Registry) (c : EventCat) : List Listener :=
  (r.entries.filter (fun e => e.1 = RegKey.cat c ∨ e.1 = RegKey.allEvents)).map
    (fun e => e.2)

/-- One observed listener invocation: which listener, which event, and whether
the callback raised. -/
structure Invocation where
  lid : Nat
  ev : InboundEvent
  raised : Bool
deriving Repr, DecidableEq

/-- Modelled from the spec (§4.4): invoke the listeners for one event in
order; a callback that raises is caught by the dispatcher (failures are
isolated per listener) and the remaining listeners are still invoked. -/
def invokeListeners : List Listener → InboundEvent → List Invocation
  | [], _ => []
  | l :: rest, e =>
    if l.raisesOn e then
      { lid := l.id, ev := e, raised := true } :: invokeListeners rest e
    else
      { lid := l.id, ev := e, raised := false } :: invokeListeners rest e

/-- Modelled from the spec (§4.4): dispatch a sequence of decoded inbound
events; dispatch for one event completes before the next is decoded, so the
invocation record is in strict receipt order. -/
def dispatchEvents (r : Registry) : List InboundEvent → List Invocation
  | [] => []
  | e :: rest => invokeListeners (r.listenersFor e.cat) e ++ dispatchEvents r rest

/-- A registry with the same registrations whose callbacks never raise (used
to state that raising has no influence on delivery). -/
def Registry.stripRaises (r : Registry) : Registry :=
  { entries := r.entries.map (fun e => (e.1, { id := e.2.id, raisesOn := fun _ => false })) }

/-! Helper lemmas. -/

/-- A nonempty string has nonzero length. -/
theorem length_ne_zero_of_ne_empty (s : String) (h : s ≠ ("")) : s.length ≠ 0 := by
  intro hl
  apply h
  cases s with
  | mk data =>
    cases data with
    | nil => rfl
    | cons c cs => simp [String.length] at hl

/-- Overwriting the same attribute with the same value twice equals doing it
once. -/
theorem setAttr_idem (a : AttrMap) (k : String) (v : DeepgramClientOptions) :
    setAttr (setAttr a k v) k v = setAttr a k v := by
  induction a with
  | nil => simp [setAttr]
  | cons hd tl ih =>
    by_cases hk : hd.1 = k
    · simp [setAttr, hk]
    · simp [setAttr, hk, ih]

/-- The writer, run for as many steps as the queue is long, flushes the queue
to the socket in FIFO order. -/
theorem writerRun_flushes (q : List OutboundFrame) :
    ∀ s : LiveConn, s.queue = q →
      s.writerRun q.length = { s with queue := [], sent := s.sent ++ q } := by
  induction q with
  | nil =>
    intro s hq
    cases s with
    | mk st q cap sent nt =>
      simp only at hq
      subst hq
      simp [LiveConn.writerRun]
  | cons f rest ih =>
    intro s hq
    cases s with
    | mk st q cap sent nt =>
      simp only at hq
      subst hq
      have hstep : (LiveConn.mk st (f :: rest) cap sent nt).writerStep =
          LiveConn.mk st rest cap (sent ++ [f]) nt := by
        simp [LiveConn.writerStep]
      calc (LiveConn.mk st (f :: rest) cap sent nt).writerRun (f :: rest).length
          = (LiveConn.mk st rest cap (sent ++ [f]) nt).writerRun rest.length := by
            simp [LiveConn.writerRun, hstep]
        _ = LiveConn.mk st [] cap ((sent ++ [f]) ++ rest) nt := ih _ rfl
        _ = LiveConn.mk st [] cap (sent ++ f :: rest) nt := by
            simp

/-- Draining leaves an empty queue and appends the queued frames, in order, to
the delivered frames. -/
theorem drain_eq (s : LiveConn) :
    s.drain = { s with queue := [], sent := s.sent ++ s.queue } :=
  writerRun_flushes s.queue s rfl

/-- `send` never changes the connection state. -/
theorem send_state_eq (s : LiveConn) (f : OutboundFrame) :
    (s.send f).1.state = s.state := by
  by_cases hc : s.state = ConnState.connected
  · by_cases hlen : s.queue.length < s.capacity
    · simp [LiveConn.send, hc, hlen]
    · simp [LiveConn.send, hc, hlen]
  · simp [LiveConn.send, hc]

/-- If every frame of a batch is accepted (no error reported), `sendAll`
appends exactly those frames, in order, to the queue tail. -/
theorem sendAll_accepted (fs : List OutboundFrame) :
    ∀ s : LiveConn, s.state = ConnState.connected → (s.sendAll fs).2 = [] →
      (s.sendAll fs).1 = { s with queue := s.queue ++ fs } := by
  induction fs with
  | nil =>
    intro s _ _
    cases s with
    | mk st q cap sent nt => simp [LiveConn.sendAll]
  | cons f rest ih =>
    intro s hconn hacc
    by_cases hlen : s.queue.length < s.capacity
    · have hsend : s.send f = ({ s with queue := s.queue ++ [f] }, none) := by
        simp [LiveConn.send, hconn, hlen]
      have hunfold : s.sendAll (f :: rest) =
          ((({ s with queue := s.queue ++ [f] } : LiveConn).sendAll rest).1,
           (({ s with queue := s.queue ++ [f] } : LiveConn).sendAll rest).2) := by
        simp [LiveConn.sendAll, hsend]
      have hacc₂ : (({ s with queue := s.queue ++ [f] } : LiveConn).sendAll rest).2 = [] := by
        rw [hunfold] at hacc
        exact hacc
      have hstate : ({ s with queue := s.queue ++ [f] } : LiveConn).state =
          ConnState.connected := hconn
      have hrest := ih { s with queue := s.queue ++ [f] } hstate hacc₂
      rw [hunfold]
      simp only [hrest]
      cases s with
      | mk st q cap sent nt => simp
    · have hsend : s.send f = (s, some SendError.backpressure) := by
        simp [LiveConn.send, hconn, hlen]
      have : (s.sendAll (f :: rest)).2 =
          SendError.backpressure :: ((s.sendAll rest).2) := by
        simp [LiveConn.sendAll, hsend]
      rw [this] at hacc
      exact absurd hacc (by simp)

/-- An instance returned by the import-and-instantiate tail carries exactly
the config it was given. -/
theorem vImport_ok_config (config : DeepgramClientOptions)
    (parent fileName className version : String)
    (imp : String → Option PyModule) (inst : VersionedClient)
    (h : vImport config parent fileName className version imp = Except.ok inst) :
    inst.config = config := by
  unfold vImport at h
  rcases himp : imp (modulePath parent version fileName) with _ | m
  all_goals rw [himp] at h
  · simp at h
  · by_cases hmem : className ∈ m.classes
    · simp [hmem] at h
      rw [← h]
    · simp [hmem] at h

/-- A versioned client returned by `Version.v` always carries the `Version`
helper's own config. -/
theorem version_v_ok_config (s : Version) (version : String)
    (imp : String → Option PyModule) (inst : VersionedClient)
    (h : Version.v s version imp = Except.ok inst) : inst.config = s.config := by
  unfold Version.v at h
  by_cases hlen : version.length = 0
  · rw [if_pos hlen] at h
    simp at h
  · rw [if_neg hlen] at h
    rcases hinfo : parentInfo s.parent with _ | ⟨parent, fileName, className⟩
    all_goals rw [hinfo] at h
    · simp at h
    · exact vImport_ok_config s.config parent fileName className version imp inst h

/-- Invoking the listeners for one event records one invocation per listener,
in order, whether or not the callback raises. -/
theorem invokeListeners_eq (ls : List Listener) (e : InboundEvent) :
    invokeListeners ls e =
      ls.map (fun l => { lid := l.id, ev := e, raised := l.raisesOn e }) := by
  induction ls with
  | nil => rfl
  | cons l rest ih =>
    by_cases hr : l.raisesOn e
    · simp [invokeListeners, hr, ih]
    · simp [invokeListeners, hr, ih]

/-- Stripping the raising behaviour from a registry does not change which
listeners are selected for a category, only their callbacks. -/
theorem listenersFor_strip (r : Registry) (c : EventCat) :
    (r.stripRaises).listenersFor c =
      (r.listenersFor c).map (fun l => { id := l.id, raisesOn := fun _ => false }) := by
  cases r with
  | mk entries =>
    induction entries with
    | nil => rfl
    | cons hd tl ih =>
      by_cases hk : hd.1 = RegKey.cat c ∨ hd.1 = RegKey.allEvents
      · simp [Registry.listenersFor, Registry.stripRaises, hk] at ih ⊢
        exact ih
      · simp [Registry.listenersFor, Registry.stripRaises, hk] at ih ⊢
        exact ih

/-! Claim theorems. -/

/-- Claim C1 (code-bug evidence): constructing `DeepgramClient` with an empty
`api_key` argument, no config or a config carrying an empty key, and the
`DEEPGRAM_API_KEY` environment variable unset completes normally — the
constructor merely logs `WARNING: API key is missing` and returns a client
whose key is empty, instead of surfacing the `DeepgramApiKeyError` that the
claim and the class's own docstring (`client.py:133-134`) require. -/
theorem deepgramClient_init_missing_key_no_error :
    DeepgramClient.init ("") none none =
      Except.ok { api_key := (""), config := { api_key := ("") }, warned := true } ∧
    DeepgramClient.init ("") (some { api_key := ("") }) none =
      Except.ok { api_key := (""), config := { api_key := ("") }, warned := true } :=
  ⟨rfl, rfl⟩

/-- Claim C2: frames enqueued while `Connected` — audio chunks interleaved
with control frames — are delivered to the socket by the writer in exactly the
enqueue (FIFO) order, behind whatever was already queued, with no frame
merged, split, dropped, or reordered, provided no backpressure rejection was
reported to the caller. -/
theorem send_queue_fifo_preserved (s : LiveConn) (fs : List OutboundFrame)
    (hconn : s.state = ConnState.connected)
    (hacc : (s.sendAll fs).2 = []) :
    ((s.sendAll fs).1.drain).sent = s.sent ++ s.queue ++ fs ∧
    ((s.sendAll fs).1.drain).queue = [] := by
  have h1 := sendAll_accepted fs s hconn hacc
  rw [h1, drain_eq]
  constructor
  · simp [List.append_assoc]
  · rfl

/-- Witness for C2 at a concrete connection and frame batch (two audio chunks
with a keep-alive control frame between them). -/
theorem send_queue_fifo_preserved_witness :
    ((LiveConn.mk ConnState.connected [] 3 [] []).sendAll
       [OutboundFrame.audioChunk [1, 2] 0,
        OutboundFrame.control ControlKind.keepAlive,
        OutboundFrame.audioChunk [3] 1]).2 = [] ∧
    (((LiveConn.mk ConnState.connected [] 3 [] []).sendAll
       [OutboundFrame.audioChunk [1, 2] 0,
        OutboundFrame.control ControlKind.keepAlive,
        OutboundFrame.audioChunk [3] 1]).1.drain).sent =
      [] ++ [] ++
      [OutboundFrame.audioChunk [1, 2] 0,
       OutboundFrame.control ControlKind.keepAlive,
       OutboundFrame.audioChunk [3] 1] := by
  have hacc : ((LiveConn.mk ConnState.connected [] 3 [] []).sendAll
       [OutboundFrame.audioChunk [1, 2] 0,
        OutboundFrame.control ControlKind.keepAlive,
        OutboundFrame.audioChunk [3] 1]).2 = [] := rfl
  exact ⟨hacc, (send_queue_fifo_preserved _ _ rfl hacc).1⟩

/-- Claim C3: `close()` is idempotent — after one `close()` the connection is
`Closed`, and a second `close()` changes nothing: no state change, no frame
sent, no notification. -/
theorem close_idempotent (s : LiveConn) : s.close.close = s.close := by
  cases s with
  | mk st q cap sent nt => cases st <;> rfl

/-- Claim C4: decoded events are dispatched to listeners in receipt order —
the invocation record is exactly one invocation per (event, registered
listener) pair, events in receipt order and listeners in registration order —
and a listener that raises never suppresses the invocation of the remaining
listeners for that event nor the dispatch of any later event: the invocation
sequence of a registry is identical (up to the recorded raise flag) to that of
the same registry with never-raising callbacks. -/
theorem dispatch_order_and_isolation (r : Registry) (events : List InboundEvent) :
    dispatchEvents r events =
      events.flatMap (fun e => (r.listenersFor e.cat).map
        (fun l => { lid := l.id, ev := e, raised := l.raisesOn e })) ∧
    dispatchEvents r.stripRaises events =
      (dispatchEvents r events).map (fun i => { i with raised := false }) := by
  constructor
  · induction events with
    | nil => rfl
    | cons e rest ih =>
      simp [dispatchEvents, invokeListeners_eq, ih]
  · induction events with
    | nil => rfl
    | cons e rest ih =>
      simp [dispatchEvents, invokeListeners_eq, listenersFor_strip, ih,
        List.map_map, Function.comp]

/-- Claim C5: every pass-through subclass is observationally equivalent to the
`*Latest` class it subclasses: the option/response pass-throughs and the four
clients with purely delegating `__init__` are (extensionally) the very same
class as their base, and the two clients that additionally pre-assign
`self.config` before delegating coincide with a base that itself stores the
config (as the modelled `*Latest` clients do), adding no fields and no
methods. -/
theorem passthrough_classes_equivalent (base : PyClass) (ms : List String) :
    PrerecordedOptions base = base ∧
    AsyncPrerecordedResponse base = base ∧
    PrerecordedResponse base = base ∧
    SyncPrerecordedResponse base = base ∧
    AnalyzeOptions base = base ∧
    AsyncAnalyzeResponse base = base ∧
    AnalyzeResponse base = base ∧
    SyncAnalyzeResponse base = base ∧
    ProjectOptions base = base ∧
    KeyOptions base = base ∧
    ScopeOptions base = base ∧
    InviteOptions base = base ∧
    UsageRequestOptions base = base ∧
    UsageSummaryOptions base = base ∧
    UsageFieldsOptions base = base ∧
    Message base = base ∧
    ManageClient base = base ∧
    AsyncManageClient base = base ∧
    AsyncPreRecordedClient base = base ∧
    AsyncAnalyzeClient base = base ∧
    PreRecordedClient (latestBase ms) = latestBase ms ∧
    AnalyzeClient (latestBase ms) = latestBase ms := by
  have hlatest : ∀ t : List String, extend (latestBase t) configThenSuperBody = latestBase t := by
    intro t
    unfold extend configThenSuperBody latestBase
    simp only [List.nil_append]
    congr 1
    funext a cfg
    exact setAttr_idem a ("config") cfg
  exact ⟨rfl, rfl, rfl, rfl, rfl, rfl, rfl, rfl, rfl, rfl, rfl, rfl, rfl, rfl, rfl, rfl,
    rfl, rfl, rfl, rfl, hlatest ms, hlatest ms⟩

/-- Claim C6: `Version.v` raises `DeepgramModuleError` when the version is
empty and when the stored parent kind is not one of `manage`, `asyncmanage`,
`onprem`, `asynconprem`; for a recognized parent and non-empty version it
loads the module `deepgram.clients.<resolved parent>.v<version>.<client or
async_client>` and, when the class resolves there, returns an instance of the
corresponding class constructed with the stored config. -/
theorem version_v_spec (s : Version) (version : String)
    (imp : String → Option PyModule) :
    (version = ("") → Version.v s version imp =
      Except.error (DgError.moduleError ("Invalid module version"))) ∧
    (version ≠ ("") → s.parent ≠ ("manage") → s.parent ≠ ("asyncmanage") →
      s.parent ≠ ("onprem") → s.parent ≠ ("asynconprem") →
      Version.v s version imp =
        Except.error (DgError.moduleError ("Invalid parent type"))) ∧
    (∀ m, version ≠ ("") → s.parent = ("manage") →
      imp (modulePath ("manage") version ("client")) = some m →
      ("ManageClient") ∈ m.classes →
      Version.v s version imp =
        Except.ok { className := ("ManageClient"), config := s.config }) ∧
    (∀ m, version ≠ ("") → s.parent = ("asyncmanage") →
      imp (modulePath ("manage") version ("async_client")) = some m →
      ("AsyncManageClient") ∈ m.classes →
      Version.v s version imp =
        Except.ok { className := ("AsyncManageClient"), config := s.config }) ∧
    (∀ m, version ≠ ("") → s.parent = ("onprem") →
      imp (modulePath ("onprem") version ("client")) = some m →
      ("OnPremClient") ∈ m.classes →
      Version.v s version imp =
        Except.ok { className := ("OnPremClient"), config := s.config }) ∧
    (∀ m, version ≠ ("") → s.parent = ("asynconprem") →
      imp (modulePath ("onprem") version ("async_client")) = some m →
      ("AsyncOnPremClient") ∈ m.classes →
      Version.v s version imp =
        Except.ok { className := ("AsyncOnPremClient"), config := s.config }) := by
  have hpos : ∀ (pK p f cn : String) (m : PyModule),
      version ≠ ("") → s.parent = pK → parentInfo pK = some (p, f, cn) →
      imp (modulePath p version f) = some m → cn ∈ m.classes →
      Version.v s version imp = Except.ok { className := cn, config := s.config } := by
    intro pK p f cn m hv hp hinfo him hc
    unfold Version.v
    rw [if_neg (length_ne_zero_of_ne_empty version hv), hp, hinfo]
    show vImport s.config p f cn version imp = _
    unfold vImport
    rw [him]
    simp [hc]
  refine ⟨?_, ?_, ?_, ?_, ?_, ?_⟩
  · intro h
    subst h
    rfl
  · intro hv h1 h2 h3 h4
    unfold Version.v
    rw [if_neg (length_ne_zero_of_ne_empty version hv)]
    have hnone : parentInfo s.parent = none := by
      unfold parentInfo
      split
      · next heq => exact absurd heq h1
      · next heq => exact absurd heq h2
      · next heq => exact absurd heq h3
      · next heq => exact absurd heq h4
      · rfl
    rw [hnone]
  · intro m hv hp him hc
    exact hpos ("manage") ("manage") ("client") ("ManageClient") m hv hp rfl him hc
  · intro m hv hp him hc
    exact hpos ("asyncmanage") ("manage") ("async_client") ("AsyncManageClient") m hv hp rfl him hc
  · intro m hv hp him hc
    exact hpos ("onprem") ("onprem") ("client") ("OnPremClient") m hv hp rfl him hc
  · intro m hv hp him hc
    exact hpos ("asynconprem") ("onprem") ("async_client") ("AsyncOnPremClient") m hv hp rfl him hc

/-- Witness for C6: concrete rejections (empty version; unknown parent) and a
concrete successful instantiation of `ManageClient` for parent `manage`,
version `1`, with the module present at
`deepgram.clients.manage.v1.client`. -/
theorem version_v_spec_witness :
    Version.v { config := { api_key := ("key") }, parent := ("manage") } ("")
        (fun _ => none) =
      Except.error (DgError.moduleError ("Invalid module version")) ∧
    Version.v { config := { api_key := ("key") }, parent := ("bogus") } ("1")
        (fun _ => none) =
      Except.error (DgError.moduleError ("Invalid parent type")) ∧
    Version.v { config := { api_key := ("key") }, parent := ("manage") } ("1")
        (fun p => if p = modulePath ("manage") ("1") ("client")
          then some { classes := [("ManageClient")] } else none) =
      Except.ok { className := ("ManageClient"), config := { api_key := ("key") } } := by
  refine ⟨(version_v_spec _ _ _).1 rfl, ?_, ?_⟩
  · exact (version_v_spec _ _ _).2.1 (by decide) (by decide) (by decide) (by decide)
      (by decide)
  · exact (version_v_spec _ _ _).2.2.1 { classes := [("ManageClient")] } (by decide) rfl
      rfl (by decide)

/-- Claim C7: every sub-client handed out by the `DeepgramClient` facade
reuses the facade's single config object — `listen`, `read`, and the four
`Version` helpers all carry `c.config`, any versioned client they instantiate
carries `c.config`, and the config's key equals the key resolved at
construction. -/
theorem facade_shares_config (k : String) (cfg : Option DeepgramClientOptions)
    (env : Option String) (c : DeepgramClient)
    (h : DeepgramClient.init k cfg env = Except.ok c) :
    c.listen.config = c.config ∧
    c.read.config = c.config ∧
    c.manage.config = c.config ∧
    c.asyncmanage.config = c.config ∧
    c.onprem.config = c.config ∧
    c.asynconprem.config = c.config ∧
    (∀ ver imp inst, Version.v c.manage ver imp = Except.ok inst →
      inst.config = c.config) ∧
    (∀ ver imp inst, Version.v c.asyncmanage ver imp = Except.ok inst →
      inst.config = c.config) ∧
    (∀ ver imp inst, Version.v c.onprem ver imp = Except.ok inst →
      inst.config = c.config) ∧
    (∀ ver imp inst, Version.v c.asynconprem ver imp = Except.ok inst →
      inst.config = c.config) ∧
    c.config.api_key = c.api_key := by
  refine ⟨rfl, rfl, rfl, rfl, rfl, rfl, ?_, ?_, ?_, ?_, ?_⟩
  · intro ver imp inst hv
    exact version_v_ok_config _ _ _ _ hv
  · intro ver imp inst hv
    exact version_v_ok_config _ _ _ _ hv
  · intro ver imp inst hv
    exact version_v_ok_config _ _ _ _ hv
  · intro ver imp inst hv
    exact version_v_ok_config _ _ _ _ hv
  · cases cfg with
    | none =>
      simp only [DeepgramClient.init, Except.ok.injEq] at h
      rw [← h]
    | some c0 =>
      simp only [DeepgramClient.init, Except.ok.injEq] at h
      rw [← h]
      rfl

/-- Witness for C7 at a concrete construction (`api_key` = `abc`, no config,
environment unset): the `Listen` sub-client carries the facade's config and
the config's key is the resolved key. -/
theorem facade_shares_config_witness :
    (DeepgramClient.mk ("abc") { api_key := ("abc") } false).listen.config =
      (DeepgramClient.mk ("abc") { api_key := ("abc") } false).config ∧
    (DeepgramClient.mk ("abc") { api_key := ("abc") } false).config.api_key =
      (DeepgramClient.mk ("abc") { api_key := ("abc") } false).api_key := by
  have h := facade_shares_config ("abc") none none
    (DeepgramClient.mk ("abc") { api_key := ("abc") } false) rfl
  exact ⟨h.1, h.2.2.2.2.2.2.2.2.2.2⟩

/-- Claim C8 (counterexample): the claim's error mapping fails for a status
error whose body parses as JSON but not as a JSON object.  The body `42`
parses as JSON (a number), yet the result is neither `DeepgramApiError` nor
`DeepgramUnknownApiError`: `.get("err_msg")` on the parsed value raises an
uncaught `AttributeError` — identically in the sync and async clients. -/
theorem rest_error_mapping_counterexample :
    (jsonLoads ("42")).isSome = true ∧
    (handle_request_sync (fun u _ => u) ("GET") ("https://api.deepgram.com/v1/projects")
        none none [] none (HttpOutcome.statusError 400 ("42"))).2 =
      Except.error RestError.attributeGetError ∧
    (handle_request_async (fun u _ => u) ("GET") ("https://api.deepgram.com/v1/projects")
        none none none [] (HttpOutcome.statusError 400 ("42"))).2 =
      Except.error RestError.attributeGetError :=
  ⟨rfl, rfl, rfl⟩

/-- Claim C8 (amended): the sync and async REST clients implement identical
request semantics — equal results for all inputs, the final URL appends
`params` first and then `addons`, a missing timeout defaults to 30 seconds
total / 10 seconds connect, success returns the response text — and an HTTP
status error maps to `DeepgramApiError` when the error body parses as a JSON
object and to `DeepgramUnknownApiError` when it does not parse as JSON at all
(a body parsing as non-object JSON raises `AttributeError` instead, per the
counterexample). -/
theorem rest_handlers_equivalent_amended
    (aqp : String → List (String × String) → String)
    (method url : String) (params addons : Option (List (String × String)))
    (headers : List (String × String)) (timeout : Option HttpxTimeout)
    (outcome : HttpOutcome) :
    handle_request_sync aqp method url params addons headers timeout outcome =
      handle_request_async aqp method url params addons timeout headers outcome ∧
    (∀ p a, params = some p → addons = some a →
      (handle_request_sync aqp method url params addons headers timeout outcome).1.url =
        aqp (aqp url p) a) ∧
    (params = none → addons = none →
      (handle_request_sync aqp method url params addons headers timeout outcome).1.url =
        url) ∧
    (timeout = none →
      (handle_request_sync aqp method url params addons headers timeout outcome).1.timeout =
        { total := 30, connect := 10 }) ∧
    (∀ text, outcome = HttpOutcome.success text →
      (handle_request_sync aqp method url params addons headers timeout outcome).2 =
        Except.ok text) ∧
    (∀ st text fields, outcome = HttpOutcome.statusError st text →
      jsonLoads text = some (JVal.jobj fields) →
      (handle_request_sync aqp method url params addons headers timeout outcome).2 =
        Except.error (RestError.apiError (dictGet fields ("err_msg"))
          (if st = 0 then 500 else st) fields)) ∧
    (∀ st text, outcome = HttpOutcome.statusError st text →
      jsonLoads text = none →
      (handle_request_sync aqp method url params addons headers timeout outcome).2 =
        Except.error (RestError.unknownApiError text (if st = 0 then 500 else st))) := by
  refine ⟨rfl, ?_, ?_, ?_, ?_, ?_, ?_⟩
  · intro p a hp ha
    subst hp
    subst ha
    rfl
  · intro hp ha
    subst hp
    subst ha
    rfl
  · intro ht
    subst ht
    rfl
  · intro text ho
    subst ho
    rfl
  · intro st text fields ho hj
    subst ho
    simp [handle_request_sync, hj]
  · intro st text ho hj
    subst ho
    simp [handle_request_sync, hj]

/-- Witness for C8 (amended) at concrete inputs: URL composition and success
text for one request; `DeepgramApiError` for JSON-object error bodies —
including one whose `err_msg` is an exponent number (`1e5`) and one carrying a
`\uXXXX` escape (`café`), both of which `json.loads` parses;
`DeepgramUnknownApiError` (with the falsy status `0` coerced to `500`) for a
non-JSON error body. -/
theorem rest_handlers_equivalent_amended_witness :
    (handle_request_sync (fun u _ => u ++ ("&q")) ("GET") ("u")
        (some [(("a"), ("b"))]) (some [(("c"), ("d"))]) [] none
        (HttpOutcome.success ("hello"))).1.url = ("u") ++ ("&q") ++ ("&q") ∧
    (handle_request_sync (fun u _ => u ++ ("&q")) ("GET") ("u")
        (some [(("a"), ("b"))]) (some [(("c"), ("d"))]) [] none
        (HttpOutcome.success ("hello"))).1.timeout = { total := 30, connect := 10 } ∧
    (handle_request_sync (fun u _ => u ++ ("&q")) ("GET") ("u")
        (some [(("a"), ("b"))]) (some [(("c"), ("d"))]) [] none
        (HttpOutcome.success ("hello"))).2 = Except.ok ("hello") ∧
    (handle_request_sync (fun u _ => u) ("GET") ("u") none none [] none
        (HttpOutcome.statusError 400 ("\x7b\"err_msg\":\"oops\"\x7d"))).2 =
      Except.error (RestError.apiError (some (JVal.jstr ("oops"))) 400
        [(("err_msg"), JVal.jstr ("oops"))]) ∧
    (handle_request_sync (fun u _ => u) ("GET") ("u") none none [] none
        (HttpOutcome.statusError 400 ("\x7b\"err_msg\":1e5\x7d"))).2 =
      Except.error (RestError.apiError (some (JVal.jnum ("1e5"))) 400
        [(("err_msg"), JVal.jnum ("1e5"))]) ∧
    (handle_request_sync (fun u _ => u) ("GET") ("u") none none [] none
        (HttpOutcome.statusError 400 ("\x7b\"err_msg\":\"caf\\u00e9\"\x7d"))).2 =
      Except.error (RestError.apiError (some (JVal.jstr ("café"))) 400
        [(("err_msg"), JVal.jstr ("café"))]) ∧
    (handle_request_sync (fun u _ => u) ("GET") ("u") none none [] none
        (HttpOutcome.statusError 0 ("notjson"))).2 =
      Except.error (RestError.unknownApiError ("notjson") 500) := by
  have h1 := rest_handlers_equivalent_amended (fun u _ => u ++ ("&q")) ("GET") ("u")
    (some [(("a"), ("b"))]) (some [(("c"), ("d"))]) [] none (HttpOutcome.success ("hello"))
  have h2 := rest_handlers_equivalent_amended (fun u _ => u) ("GET") ("u") none none [] none
    (HttpOutcome.statusError 400 ("\x7b\"err_msg\":\"oops\"\x7d"))
  have h4 := rest_handlers_equivalent_amended (fun u _ => u) ("GET") ("u") none none [] none
    (HttpOutcome.statusError 400 ("\x7b\"err_msg\":1e5\x7d"))
  have h5 := rest_handlers_equivalent_amended (fun u _ => u) ("GET") ("u") none none [] none
    (HttpOutcome.statusError 400 ("\x7b\"err_msg\":\"caf\\u00e9\"\x7d"))
  have h3 := rest_handlers_equivalent_amended (fun u _ => u) ("GET") ("u") none none [] none
    (HttpOutcome.statusError 0 ("notjson"))
  refine ⟨h1.2.1 _ _ rfl rfl, h1.2.2.2.1 rfl, h1.2.2.2.2.1 ("hello") rfl, ?_, ?_, ?_, ?_⟩
  · exact h2.2.2.2.2.2.1 400 ("\x7b\"err_msg\":\"oops\"\x7d")
      [(("err_msg"), JVal.jstr ("oops"))] rfl rfl
  · exact h4.2.2.2.2.2.1 400 ("\x7b\"err_msg\":1e5\x7d")
      [(("err_msg"), JVal.jnum ("1e5"))] rfl rfl
  · exact h5.2.2.2.2.2.1 400 ("\x7b\"err_msg\":\"caf\\u00e9\"\x7d")
      [(("err_msg"), JVal.jstr ("café"))] rfl rfl
  · exact h3.2.2.2.2.2.2 0 ("notjson") rfl rfl

/-- Claim C9: whenever the options dict is present and contains the key
`callback`, `transcribe_url` fails with `DeepgramError` before issuing any
HTTP request — for every source, even an invalid one, since the callback check
precedes the source check. -/
theorem transcribe_url_callback_rejected (c : PreRecordedClientV1)
    (isUrlSource : PyDict → Bool) (source : PyDict) (o : PyDict) (endpoint : String)
    (h : o.hasKey ("callback") = true) :
    transcribe_url c isUrlSource source (some o) endpoint =
      ([], Except.error (DgError.deepgramError
        ("Callback cannot be provided as an option to a synchronous transcription. Use `transcribe_url_callback` instead."))) := by
  simp [transcribe_url, h]

/-- Witness for C9 at a concrete client, source, and options dict carrying a
`callback` key: no request is issued and the `DeepgramError` surfaces. -/
theorem transcribe_url_callback_rejected_witness :
    transcribe_url { url := ("https://api.deepgram.com"), headers := [] }
        (fun _ => true) [(("url"), ("https://x/audio.wav"))]
        (some [(("callback"), ("https://cb"))]) ("v1/listen") =
      ([], Except.error (DgError.deepgramError
        ("Callback cannot be provided as an option to a synchronous transcription. Use `transcribe_url_callback` instead."))) :=
  transcribe_url_callback_rejected _ _ _ _ _ rfl

/-- Claim C10: instantiating the legacy `Deepgram` class raises for every
argument list — construction never succeeds and never returns an object. -/
theorem legacy_deepgram_always_raises (args : List String) :
    Deepgram.init args = Except.error (DgError.pyException
      ("FATAL ERROR: You are attempting to instantiate a Deepgram object, which is no longer a class in version 3 of this SDK.")) :=
  rfl

end DG
